/-
Verification of the sysdlog package (go-systemd-logger): a shallow
embedding of src/sysdlog/sysdlog.go and proofs about its observable
behavior.

Modelling conventions:
- Go strings are Lean `String`s; Go `len` on a string is
  `String.utf8ByteSize` (byte length of the UTF-8 encoding).
- The network environment is an explicit `Env` record: whether
  `net.Dial("unixgram", "/dev/log")` succeeds, and what error
  `fmt.Fprintf` on a given connection handle would report.
- A `net.Conn` handle is modelled by a `Conn` record carrying only the
  observable state the package can change (whether `Close` was called
  on it).
- Each operation returns its Go results plus the instrumented
  observables of the call: the updated `Sysdlog` state, the list of
  framed payloads handed to `fmt.Fprintf` on the connection, and the
  number of framed-write and dial attempts performed.  The debug
  `fmt.Println("prefix:", sdl.prefix)` at sysdlog.go:208 goes to
  stdout, not to the connection, so it is not part of the emitted
  frames.
-/
import Mathlib

set_option autoImplicit false
set_option linter.dupNamespace false

namespace Sysdlog

/-- Go: `type Severity string` (sysdlog.go:21). -/
abbrev Severity := String

/-- Go: `LOG_EMERG Severity = "<0>"` (sysdlog.go:24). -/
def LOG_EMERG : Severity := "<0>"

/-- Go: `LOG_ALERT Severity = "<1>"` (sysdlog.go:25). -/
def LOG_ALERT : Severity := "<1>"

/-- Go: `LOG_CRIT Severity = "<2>"` (sysdlog.go:26). -/
def LOG_CRIT : Severity := "<2>"

/-- Go: `LOG_ERR Severity = "<3>"` (sysdlog.go:27). -/
def LOG_ERR : Severity := "<3>"

/-- Go: `LOG_WARNING Severity = "<4>"` (sysdlog.go:28). -/
def LOG_WARNING : Severity := "<4>"

/-- Go: `LOG_NOTICE Severity = "<5>"` (sysdlog.go:29). -/
def LOG_NOTICE : Severity := "<5>"

/-- Go: `LOG_INFO Severity = "<6>"` (sysdlog.go:30). -/
def LOG_INFO : Severity := "<6>"

/-- Go: `LOG_DEBUG Severity = "<7>"` (sysdlog.go:31). -/
def LOG_DEBUG : Severity := "<7>"

/-- The eight severities in declaration order, most severe first. -/
def severities : List Severity :=
  [LOG_EMERG, LOG_ALERT, LOG_CRIT, LOG_ERR, LOG_WARNING, LOG_NOTICE,
   LOG_INFO, LOG_DEBUG]

/-- The spec's error taxonomy for the two fallible external calls:
`connectionError` for a failed `net.Dial` (construction or reconnect),
`writeError` for a transport failure reported by `fmt.Fprintf` on an
open connection. -/
inductive GoError where
  | connectionError
  | writeError
deriving DecidableEq, Repr

/-- A `net.Conn` handle.  The only state of it the package ever changes
is whether `Close()` has been called on it. -/
structure Conn where
  closed : Bool
deriving DecidableEq, Repr

/-- Go: `type Sysdlog struct { prefix string; conn net.Conn; mu sync.Mutex }`
(sysdlog.go:35-40).  `pfx` models the Go field `prefix` (a Lean keyword);
`conn = none` models a nil handle.  The mutex only serializes calls and has
no sequential observable effect, so it is not modelled. -/
structure Sysdlog where
  pfx : String
  conn : Option Conn
deriving DecidableEq, Repr

/-- The external world of one call: whether `net.Dial("unixgram", "/dev/log")`
succeeds, and the transport outcome `fmt.Fprintf` would report on a given
handle (`none` = the datagram was accepted). -/
structure Env where
  dialOk : Bool
  sendErr : Option Conn → Option GoError

/-- Go: `strings.HasSuffix(m, "\n")` (sysdlog.go:204): whether the final
character of the string is a newline (for UTF-8 text the byte suffix
check for the single byte 0x0A is exactly this). -/
def hasSuffixNL (m : String) : Bool :=
  match m.data.getLast? with
  | some c => c == '\n'
  | none => false

/-- Results of the unexported `write` (sysdlog.go:201-211): the returned
count and error, plus the framed payload handed to `fmt.Fprintf`. -/
structure WriteResult where
  n : Nat
  err : Option GoError
  frame : String
deriving DecidableEq, Repr

/-- Go (sysdlog.go:201-211):

```
func (sdl *Sysdlog) write(s Severity, m string) (int, error) {
    nl := ""
    if !strings.HasSuffix(m, "\n") {
        nl = "\n"
    }
    fmt.Println("prefix:", sdl.prefix)
    fmt.Fprintf(sdl.conn, "%s %s%s%s", s, sdl.prefix, m, nl)
    return len(m), nil
}
```

The transport outcome of the `fmt.Fprintf` call (`env.sendErr sdl.conn`)
is discarded by the source: the function returns `len(m), nil`
unconditionally. -/
def write (env : Env) (sdl : Sysdlog) (s : Severity) (m : String) : WriteResult :=
  let nl := if hasSuffixNL m then "" else "\n"
  let _fprintfOutcome := env.sendErr sdl.conn
  { n := m.utf8ByteSize
    err := none
    frame := s ++ " " ++ sdl.pfx ++ m ++ nl }

/-- Go (sysdlog.go:214-223): `net.Dial("unixgram", "/dev/log")`; on success
the fresh handle is stored in `sdl.conn`, on failure the dial error is
returned and the state is untouched. -/
def connect (env : Env) (sdl : Sysdlog) : Except GoError Sysdlog :=
  if env.dialOk then
    Except.ok { sdl with conn := some { closed := false } }
  else
    Except.error GoError.connectionError

/-- The instrumented observables of one `writeRetry` call: the Go return
values (`n`, `err`), the state after the call, every framed payload handed
to `fmt.Fprintf`, and the number of framed-write and dial attempts. -/
structure RetryResult where
  n : Nat
  err : Option GoError
  final : Sysdlog
  emitted : List String
  writes : Nat
  connects : Nat
deriving DecidableEq, Repr

/-- The fall-through of `writeRetry` (sysdlog.go:191-198): reconnect once;
if dialing fails return `0, err`; otherwise retry the framed write once
against the fresh connection and return its outcome as-is.  `preEmitted`
and `preWrites` carry the observables of a first write attempt that fell
through. -/
def retryPath (env : Env) (sdl : Sysdlog) (s : Severity) (m : String)
    (preEmitted : List String) (preWrites : Nat) : RetryResult :=
  match connect env sdl with
  | Except.error e =>
    { n := 0, err := some e, final := sdl, emitted := preEmitted,
      writes := preWrites, connects := 1 }
  | Except.ok sdl2 =>
    let r2 := write env sdl2 s m
    { n := r2.n, err := r2.err, final := sdl2,
      emitted := preEmitted ++ [r2.frame], writes := preWrites + 1,
      connects := 1 }

/-- Go (sysdlog.go:180-199):

```
func (sdl *Sysdlog) writeRetry(s Severity, m string) (int, error) {
    sdl.mu.Lock()
    defer sdl.mu.Unlock()
    if sdl.conn != nil {
        if n, err := sdl.write(s, m); err == nil {
            return n, err
        }
    }
    if err := sdl.connect(); err != nil {
        return 0, err
    }
    return sdl.write(s, m)
}
```
-/
def writeRetry (env : Env) (sdl : Sysdlog) (s : Severity) (m : String) :
    RetryResult :=
  match sdl.conn with
  | some _ =>
    let r1 := write env sdl s m
    match r1.err with
    | none =>
      { n := r1.n, err := none, final := sdl, emitted := [r1.frame],
        writes := 1, connects := 0 }
    | some _ => retryPath env sdl s m [r1.frame] 1
  | none => retryPath env sdl s m [] 0

/-- Go `New` (sysdlog.go:48-58): build the struct with the given prefix and
a nil handle, connect eagerly, and fail (returning no instance) if the
single dial fails. -/
def New (env : Env) (p : String) : Except GoError Sysdlog :=
  match connect env { pfx := p, conn := none } with
  | Except.error e => Except.error e
  | Except.ok sdl => Except.ok sdl

/-- Go `Close` (sysdlog.go:72-74): `sdl.conn.Close()`.  The handle itself is
closed but the field keeps pointing at it (it is never set back to nil). -/
def Close (sdl : Sysdlog) : Sysdlog :=
  { sdl with conn := sdl.conn.map fun c => { c with closed := true } }

/-- Go `Write` (sysdlog.go:78-80): the `io.Writer` method; logs the buffer at
severity `LOG_ERR`.  The byte buffer `b` is modelled by the string
`string(b)`; Go's `len` of both is `utf8ByteSize`. -/
def Write (env : Env) (sdl : Sysdlog) (b : String) : RetryResult :=
  writeRetry env sdl LOG_ERR b

/-- Go `Emerg` (sysdlog.go:83-86).  The Go wrapper returns only the error
component; the state mutation and emitted frames are its side effects,
so the full instrumented result is kept. -/
def Emerg (env : Env) (sdl : Sysdlog) (m : String) : RetryResult :=
  writeRetry env sdl LOG_EMERG m

/-- Go `Alert` (sysdlog.go:89-92). -/
def Alert (env : Env) (sdl : Sysdlog) (m : String) : RetryResult :=
  writeRetry env sdl LOG_ALERT m

/-- Go `Crit` (sysdlog.go:95-98). -/
def Crit (env : Env) (sdl : Sysdlog) (m : String) : RetryResult :=
  writeRetry env sdl LOG_CRIT m

/-- Go `Err` (sysdlog.go:101-104). -/
def Err (env : Env) (sdl : Sysdlog) (m : String) : RetryResult :=
  writeRetry env sdl LOG_ERR m

/-- Go `Warning` (sysdlog.go:107-110). -/
def Warning (env : Env) (sdl : Sysdlog) (m : String) : RetryResult :=
  writeRetry env sdl LOG_WARNING m

/-- Go `Notice` (sysdlog.go:113-116). -/
def Notice (env : Env) (sdl : Sysdlog) (m : String) : RetryResult :=
  writeRetry env sdl LOG_NOTICE m

/-- Go `Info` (sysdlog.go:119-122). -/
def Info (env : Env) (sdl : Sysdlog) (m : String) : RetryResult :=
  writeRetry env sdl LOG_INFO m

/-- Go `Debug` (sysdlog.go:125-128). -/
def Debug (env : Env) (sdl : Sysdlog) (m : String) : RetryResult :=
  writeRetry env sdl LOG_DEBUG m

/-- Go `Emergf` (sysdlog.go:131-134): `writeRetry(LOG_EMERG,
fmt.Sprintf(format, v...))`.  `fmt.Sprintf` is a black box to this
package, so the substitution function is a parameter (`sub`), applied to
the format string and the variadic arguments exactly as the source does. -/
def Emergf {α : Type} (sub : String → List α → String) (env : Env)
    (sdl : Sysdlog) (format : String) (v : List α) : RetryResult :=
  writeRetry env sdl LOG_EMERG (sub format v)

/-- Go `Alertf` (sysdlog.go:137-140). -/
def Alertf {α : Type} (sub : String → List α → String) (env : Env)
    (sdl : Sysdlog) (format : String) (v : List α) : RetryResult :=
  writeRetry env sdl LOG_ALERT (sub format v)

/-- Go `Critf` (sysdlog.go:143-146). -/
def Critf {α : Type} (sub : String → List α → String) (env : Env)
    (sdl : Sysdlog) (format : String) (v : List α) : RetryResult :=
  writeRetry env sdl LOG_CRIT (sub format v)

/-- Go `Errf` (sysdlog.go:149-152). -/
def Errf {α : Type} (sub : String → List α → String) (env : Env)
    (sdl : Sysdlog) (format : String) (v : List α) : RetryResult :=
  writeRetry env sdl LOG_ERR (sub format v)

/-- Go `Warningf` (sysdlog.go:155-158). -/
def Warningf {α : Type} (sub : String → List α → String) (env : Env)
    (sdl : Sysdlog) (format : String) (v : List α) : RetryResult :=
  writeRetry env sdl LOG_WARNING (sub format v)

/-- Go `Noticef` (sysdlog.go:161-164). -/
def Noticef {α : Type} (sub : String → List α → String) (env : Env)
    (sdl : Sysdlog) (format : String) (v : List α) : RetryResult :=
  writeRetry env sdl LOG_NOTICE (sub format v)

/-- Go `Infof` (sysdlog.go:167-170). -/
def Infof {α : Type} (sub : String → List α → String) (env : Env)
    (sdl : Sysdlog) (format : String) (v : List α) : RetryResult :=
  writeRetry env sdl LOG_INFO (sub format v)

/-- Go `Debugf` (sysdlog.go:173-176). -/
def Debugf {α : Type} (sub : String → List α → String) (env : Env)
    (sdl : Sysdlog) (format : String) (v : List α) : RetryResult :=
  writeRetry env sdl LOG_DEBUG (sub format v)

/-- A benign environment for concrete evaluations: dialing succeeds and the
transport accepts every datagram. -/
def env0 : Env := { dialOk := true, sendErr := fun _ => none }

/-- A connected logger with prefix `"[app] "`, as produced by `New`. -/
def sdlApp : Sysdlog := { pfx := "[app] ", conn := some { closed := false } }

/-- An environment where the endpoint is unreachable: dialing fails and the
transport reports an error on every handle. -/
def envDown : Env :=
  { dialOk := false, sendErr := fun _ => some GoError.writeError }

/-- An environment where dialing succeeds but the transport reports an
error whenever the handle is closed (or nil). -/
def envClosedFails : Env :=
  { dialOk := true,
    sendErr := fun co =>
      if (co.map Conn.closed).getD true then some GoError.writeError
      else none }

/-- The number of consecutive newline characters at the end of a string. -/
def trailingNLs (s : String) : Nat :=
  (s.data.reverse.takeWhile fun c => c == '\n').length

/-! ### Helper lemmas -/

/-- Appending on the left preserves a trailing newline. -/
theorem hasSuffixNL_append (x m : String) (h : hasSuffixNL m = true) :
    hasSuffixNL (x ++ m) = true := by
  unfold hasSuffixNL at h ⊢
  rw [String.data_append]
  cases hm : m.data.getLast? with
  | none => rw [hm] at h; exact absurd h (by simp)
  | some c =>
    have hne : m.data ≠ [] := by
      intro hnil; rw [hnil] at hm; simp at hm
    rw [List.getLast?_append_of_ne_nil _ hne, hm]
    rw [hm] at h; exact h

/-- A string with an appended newline ends with a newline. -/
theorem hasSuffixNL_append_newline (x : String) : hasSuffixNL (x ++ "\n") = true :=
  hasSuffixNL_append x "\n" (by decide)

/-- Evaluating `writeRetry` on a non-nil handle: the single framed write succeeds
(the source's `write` never reports an error), nothing is reconnected and
the state is unchanged. -/
theorem writeRetry_conn_some (env : Env) (p : String) (c : Conn) (s : Severity)
    (m : String) :
    writeRetry env { pfx := p, conn := some c } s m =
      { n := m.utf8ByteSize, err := none,
        final := { pfx := p, conn := some c },
        emitted := [s ++ " " ++ p ++ m ++ (if hasSuffixNL m then "" else "\n")],
        writes := 1, connects := 0 } := rfl

/-- Evaluating `writeRetry` on a nil handle: one dial, then on success one framed
write against the fresh connection, on failure the dial error. -/
theorem writeRetry_conn_none (env : Env) (p : String) (s : Severity) (m : String) :
    writeRetry env { pfx := p, conn := none } s m =
      if env.dialOk then
        { n := m.utf8ByteSize, err := none,
          final := { pfx := p, conn := some { closed := false } },
          emitted := [s ++ " " ++ p ++ m ++ (if hasSuffixNL m then "" else "\n")],
          writes := 1, connects := 1 }
      else
        { n := 0, err := some GoError.connectionError,
          final := { pfx := p, conn := none },
          emitted := [], writes := 0, connects := 1 } := by
  rcases env with ⟨d, se⟩
  cases d <;> rfl

/-- Any successful `writeRetry` call emits exactly the one frame
`severity ++ " " ++ prefix ++ message ++ conditional newline`. -/
theorem writeRetry_emitted_of_ok (env : Env) (sdl : Sysdlog) (s : Severity)
    (m : String) (hok : (writeRetry env sdl s m).err = none) :
    (writeRetry env sdl s m).emitted =
      [s ++ " " ++ sdl.pfx ++ m ++ (if hasSuffixNL m then "" else "\n")] := by
  rcases sdl with ⟨p, co⟩
  cases co with
  | some c => rw [writeRetry_conn_some]
  | none =>
    rw [writeRetry_conn_none] at hok ⊢
    cases hd : env.dialOk with
    | false => rw [hd] at hok; simp at hok
    | true => simp

/-- Any successful `writeRetry` call returns the message's byte length. -/
theorem writeRetry_n_of_ok (env : Env) (sdl : Sysdlog) (s : Severity)
    (m : String) (hok : (writeRetry env sdl s m).err = none) :
    (writeRetry env sdl s m).n = m.utf8ByteSize := by
  rcases sdl with ⟨p, co⟩
  cases co with
  | some c => rw [writeRetry_conn_some]
  | none =>
    rw [writeRetry_conn_none] at hok ⊢
    cases hd : env.dialOk with
    | false => rw [hd] at hok; simp at hok
    | true => simp

/-- Calling `writeRetry` never changes the prefix field. -/
theorem writeRetry_final_pfx (env : Env) (sdl : Sysdlog) (s : Severity)
    (m : String) : (writeRetry env sdl s m).final.pfx = sdl.pfx := by
  rcases sdl with ⟨p, co⟩
  cases co with
  | some c => rw [writeRetry_conn_some]
  | none =>
    rw [writeRetry_conn_none]
    cases env.dialOk <;> simp

/-! ### Claims -/

/-- C1: for every severity, prefix and message, a successful logging call
emits exactly one frame: the severity's fixed 3-character tag (its numeric
code 0..7 in angle brackets, index 0 = most severe, 7 = least severe),
then a single space, then the prefix unmodified, then the message, then
the conditional trailing newline; in particular prefix `"[app] "` and
message `"hello"` at Info yield the frame `"<6> [app] hello\n"`. -/
theorem c1_frame_format (i : Fin 8) (env : Env) (sdl : Sysdlog) (m : String)
    (hok : (writeRetry env sdl (severities.get i) m).err = none) :
    ((severities.get i).length = 3 ∧
      severities.get i = "<" ++ toString i.val ++ ">") ∧
    (writeRetry env sdl (severities.get i) m).emitted =
      [severities.get i ++ " " ++ sdl.pfx ++ m ++
        (if hasSuffixNL m then "" else "\n")] ∧
    (writeRetry env0 sdlApp LOG_INFO "hello").emitted = ["<6> [app] hello\n"] :=
  ⟨⟨by fin_cases i <;> decide, by fin_cases i <;> decide⟩,
    writeRetry_emitted_of_ok env sdl (severities.get i) m hok, by decide⟩

/-- Witness for C1: the Info-severity instance with prefix `"[app] "` and
message `"hello"`. -/
theorem c1_frame_format_witness :
    (writeRetry env0 sdlApp (severities.get (6 : Fin 8)) "hello").emitted =
      [severities.get (6 : Fin 8) ++ " " ++ sdlApp.pfx ++ "hello" ++
        (if hasSuffixNL "hello" then "" else "\n")] :=
  (c1_frame_format 6 env0 sdlApp "hello" rfl).2.1

/-- C2 as stated is false: the clause "every emitted frame has exactly one
trailing newline, never two" fails for a message that itself ends in two
newlines.  Logging `"hi\n\n"` succeeds, appends nothing, and the emitted
frame `"<6> hi\n\n"` ends in two newlines. -/
theorem c2_counterexample :
    (writeRetry env0 { pfx := "", conn := some { closed := false } } LOG_INFO
        "hi\n\n").err = none ∧
    (writeRetry env0 { pfx := "", conn := some { closed := false } } LOG_INFO
        "hi\n\n").emitted = ["<6> hi\n\n"] ∧
    trailingNLs "<6> hi\n\n" ≠ 1 :=
  ⟨rfl, rfl, by decide⟩

/-- C2 (amended): for every message that does not end in a newline the
successful call appends exactly one newline, for every message already
ending in a newline it appends nothing, and every emitted frame ends with
at least one trailing newline (it can end with more only when the message
itself already does). -/
theorem c2_trailing_newline (env : Env) (sdl : Sysdlog) (s : Severity)
    (m : String) (hok : (writeRetry env sdl s m).err = none) :
    (hasSuffixNL m = false →
      (writeRetry env sdl s m).emitted = [s ++ " " ++ sdl.pfx ++ m ++ "\n"]) ∧
    (hasSuffixNL m = true →
      (writeRetry env sdl s m).emitted = [s ++ " " ++ sdl.pfx ++ m]) ∧
    ∀ fr ∈ (writeRetry env sdl s m).emitted, hasSuffixNL fr = true := by
  have he := writeRetry_emitted_of_ok env sdl s m hok
  refine ⟨fun hm => by rw [he, hm]; simp, fun hm => by rw [he, hm]; simp, ?_⟩
  intro fr hfr
  rw [he] at hfr
  simp only [List.mem_singleton] at hfr
  subst hfr
  cases hm : hasSuffixNL m with
  | true =>
    have hi : (if (true : Bool) = true then "" else "\n") = "" := by simp
    rw [hi, String.append_empty]
    exact hasSuffixNL_append _ m hm
  | false =>
    have hi : (if (false : Bool) = true then "" else "\n") = "\n" := by simp
    rw [hi]
    exact hasSuffixNL_append_newline _

/-- Witness for C2 (amended): the instance at Info severity with prefix
`"[app] "` and message `"hello"`. -/
theorem c2_trailing_newline_witness :
    (writeRetry env0 sdlApp LOG_INFO "hello").emitted =
      [LOG_INFO ++ " " ++ sdlApp.pfx ++ "hello" ++ "\n"] :=
  (c2_trailing_newline env0 sdlApp LOG_INFO "hello" rfl).1 (by decide)

/-- C3: the recovery algorithm of every logging call: with a non-nil handle
the framed write is attempted first; a reconnect (a single dial) happens
exactly when there was no handle or that first attempt failed; a failed
reconnect propagates the connection error to the caller; after a
successful reconnect the second framed write's outcome is returned as-is;
and every call performs at most one reconnect attempt and at most two
framed-write attempts (no retry loop). -/
theorem c3_retry_policy (env : Env) (sdl : Sysdlog) (s : Severity) (m : String) :
    (writeRetry env sdl s m).connects ≤ 1 ∧
    (writeRetry env sdl s m).writes ≤ 2 ∧
    (sdl.conn ≠ none → 1 ≤ (writeRetry env sdl s m).writes) ∧
    ((writeRetry env sdl s m).connects = 1 ↔
      sdl.conn = none ∨ (write env sdl s m).err ≠ none) ∧
    (sdl.conn = none → env.dialOk = false →
      (writeRetry env sdl s m).err = some GoError.connectionError ∧
      (writeRetry env sdl s m).n = 0) ∧
    ∀ sdl2, connect env sdl = Except.ok sdl2 →
      (writeRetry env sdl s m).connects = 1 →
      (writeRetry env sdl s m).n = (write env sdl2 s m).n ∧
      (writeRetry env sdl s m).err = (write env sdl2 s m).err := by
  rcases sdl with ⟨p, co⟩
  cases co with
  | some c =>
    rw [writeRetry_conn_some]
    refine ⟨by simp, by simp, fun _ => by simp, by simp [write], ?_, ?_⟩
    · intro hnone; exact absurd hnone (by simp)
    · intro sdl2 _ h1; exact absurd h1 (by simp)
  | none =>
    rw [writeRetry_conn_none]
    cases hd : env.dialOk with
    | false =>
      refine ⟨by simp, by simp, fun hco => absurd rfl hco, by simp, ?_, ?_⟩
      · intro _ _; simp
      · intro sdl2 hc; rw [connect, hd] at hc; simp at hc
    | true =>
      refine ⟨by simp, by simp, fun _ => by simp, by simp, ?_, ?_⟩
      · intro _ hfalse; simp at hfalse
      · intro sdl2 hc _
        rw [connect, hd] at hc
        simp only [if_true] at hc
        cases hc
        constructor <;> simp [write]

/-- Witness for C3 at a nil handle and an unreachable endpoint: the call
fails with the connection error and returns count 0. -/
theorem c3_retry_policy_witness :
    (writeRetry envDown { pfx := "", conn := none } LOG_INFO "x").err =
      some GoError.connectionError ∧
    (writeRetry envDown { pfx := "", conn := none } LOG_INFO "x").n = 0 :=
  (c3_retry_policy envDown { pfx := "", conn := none } LOG_INFO
    "x").2.2.2.2.1 rfl rfl

/-- C4 is contradicted by the code: with an open connection whose transport
rejects the framed write (the environment's `fmt.Fprintf` outcome is
`writeError`) the call still returns success `(5, nil)` — `write` discards
the `fmt.Fprintf` result at sysdlog.go:209-210 and returns `len(m), nil`,
so the transport failure is swallowed instead of surfacing as a
`WriteError`. -/
theorem c4_write_error_swallowed :
    envDown.sendErr sdlApp.conn = some GoError.writeError ∧
    (writeRetry envDown sdlApp LOG_INFO "hello").err = none ∧
    (writeRetry envDown sdlApp LOG_INFO "hello").n = 5 ∧
    (writeRetry envDown sdlApp LOG_INFO "hello").connects = 0 :=
  ⟨rfl, rfl, by decide, rfl⟩

/-- C5 is contradicted by the code: `Close` leaves the handle non-nil, so
the next logging call takes the existing-connection path, `write` discards
the transport error that the closed handle reports, and the call silently
succeeds with no reconnect attempt at all. -/
theorem c5_close_then_silently_succeeds :
    (Close sdlApp).conn = some { closed := true } ∧
    envClosedFails.sendErr (Close sdlApp).conn = some GoError.writeError ∧
    (writeRetry envClosedFails (Close sdlApp) LOG_INFO "x").err = none ∧
    (writeRetry envClosedFails (Close sdlApp) LOG_INFO "x").connects = 0 ∧
    (writeRetry envClosedFails (Close sdlApp) LOG_INFO "x").emitted =
      ["<6> [app] x\n"] :=
  ⟨rfl, rfl, rfl, rfl, rfl⟩

/-- C6: construction is eager with exactly one dial and no retries: `New`
is the single `connect` attempt on the initial state; against an
unreachable endpoint it fails with the connection error and returns no
instance, and otherwise it returns a logger carrying the given prefix and
a freshly opened connection. -/
theorem c6_new_eager (env : Env) (p : String) :
    New env p = connect env { pfx := p, conn := none } ∧
    (env.dialOk = false → New env p = Except.error GoError.connectionError) ∧
    (env.dialOk = true →
      New env p = Except.ok { pfx := p, conn := some { closed := false } }) := by
  refine ⟨?_, fun hd => ?_, fun hd => ?_⟩
  · rcases env with ⟨d, se⟩; cases d <;> rfl
  · simp [New, connect, hd]
  · simp [New, connect, hd]

/-- Witness for C6: against the unreachable environment, construction with
prefix `"[app] "` fails with the connection error. -/
theorem c6_new_eager_witness :
    New envDown "[app] " = Except.error GoError.connectionError :=
  (c6_new_eager envDown "[app] ").2.1 rfl

/-- C7: `Write` (the io.Writer method) logs the buffer at the fixed error
severity `LOG_ERR = "<3>"` regardless of its content, and on success
returns a count equal to the buffer's byte length, the appended framing
(tag, space, prefix, conditional newline) excluded. -/
theorem c7_writebytes (env : Env) (sdl : Sysdlog) (b : String) :
    Write env sdl b = writeRetry env sdl LOG_ERR b ∧
    ((Write env sdl b).err = none →
      (Write env sdl b).n = b.utf8ByteSize ∧
      (Write env sdl b).emitted =
        [LOG_ERR ++ " " ++ sdl.pfx ++ b ++
          (if hasSuffixNL b then "" else "\n")]) :=
  ⟨rfl, fun hok =>
    ⟨writeRetry_n_of_ok env sdl LOG_ERR b hok,
     writeRetry_emitted_of_ok env sdl LOG_ERR b hok⟩⟩

/-- Witness for C7: writing the buffer `"abc"` through the connected logger
returns count 3 and emits the error-tagged frame. -/
theorem c7_writebytes_witness :
    (Write env0 sdlApp "abc").n = ("abc" : String).utf8ByteSize ∧
    (Write env0 sdlApp "abc").emitted =
      [LOG_ERR ++ " " ++ sdlApp.pfx ++ "abc" ++
        (if hasSuffixNL "abc" then "" else "\n")] :=
  (c7_writebytes env0 sdlApp "abc").2 rfl

/-- C8: each of the eight per-severity convenience operations is exactly
the general logging operation at its fixed severity, and each formatted
variant is exactly the corresponding plain variant applied to the result
of substituting the arguments into the format string (for every
substitution function, mirroring the source's black-box use of
`fmt.Sprintf`). -/
theorem c8_convenience_ops (α : Type) (sub : String → List α → String)
    (env : Env) (sdl : Sysdlog) (m f : String) (v : List α) :
    (Emerg env sdl m = writeRetry env sdl LOG_EMERG m ∧
     Alert env sdl m = writeRetry env sdl LOG_ALERT m ∧
     Crit env sdl m = writeRetry env sdl LOG_CRIT m ∧
     Err env sdl m = writeRetry env sdl LOG_ERR m ∧
     Warning env sdl m = writeRetry env sdl LOG_WARNING m ∧
     Notice env sdl m = writeRetry env sdl LOG_NOTICE m ∧
     Info env sdl m = writeRetry env sdl LOG_INFO m ∧
     Debug env sdl m = writeRetry env sdl LOG_DEBUG m) ∧
    (Emergf sub env sdl f v = Emerg env sdl (sub f v) ∧
     Alertf sub env sdl f v = Alert env sdl (sub f v) ∧
     Critf sub env sdl f v = Crit env sdl (sub f v) ∧
     Errf sub env sdl f v = Err env sdl (sub f v) ∧
     Warningf sub env sdl f v = Warning env sdl (sub f v) ∧
     Noticef sub env sdl f v = Notice env sdl (sub f v) ∧
     Infof sub env sdl f v = Info env sdl (sub f v) ∧
     Debugf sub env sdl f v = Debug env sdl (sub f v)) :=
  ⟨⟨rfl, rfl, rfl, rfl, rfl, rfl, rfl, rfl⟩,
   ⟨rfl, rfl, rfl, rfl, rfl, rfl, rfl, rfl⟩⟩

/-- C9: the prefix is fixed at construction and never changes: `New`
installs exactly the given string, and every operation — the general
logging call (hence all convenience operations), `Write`, `connect`
(reconnect) and `Close` — leaves the prefix field unchanged. -/
theorem c9_prefix_immutable (env : Env) (sdl : Sysdlog) (s : Severity)
    (m p b : String) :
    (writeRetry env sdl s m).final.pfx = sdl.pfx ∧
    (Write env sdl b).final.pfx = sdl.pfx ∧
    (Close sdl).pfx = sdl.pfx ∧
    (∀ sdl2, connect env sdl = Except.ok sdl2 → sdl2.pfx = sdl.pfx) ∧
    (∀ sdl2, New env p = Except.ok sdl2 → sdl2.pfx = p) ∧
    ((Emerg env sdl m).final.pfx = sdl.pfx ∧
     (Alert env sdl m).final.pfx = sdl.pfx ∧
     (Crit env sdl m).final.pfx = sdl.pfx ∧
     (Err env sdl m).final.pfx = sdl.pfx ∧
     (Warning env sdl m).final.pfx = sdl.pfx ∧
     (Notice env sdl m).final.pfx = sdl.pfx ∧
     (Info env sdl m).final.pfx = sdl.pfx ∧
     (Debug env sdl m).final.pfx = sdl.pfx) ∧
    ∀ (α : Type) (sub : String → List α → String) (v : List α),
      (Emergf sub env sdl m v).final.pfx = sdl.pfx ∧
      (Alertf sub env sdl m v).final.pfx = sdl.pfx ∧
      (Critf sub env sdl m v).final.pfx = sdl.pfx ∧
      (Errf sub env sdl m v).final.pfx = sdl.pfx ∧
      (Warningf sub env sdl m v).final.pfx = sdl.pfx ∧
      (Noticef sub env sdl m v).final.pfx = sdl.pfx ∧
      (Infof sub env sdl m v).final.pfx = sdl.pfx ∧
      (Debugf sub env sdl m v).final.pfx = sdl.pfx := by
  refine ⟨writeRetry_final_pfx env sdl s m,
    writeRetry_final_pfx env sdl LOG_ERR b, rfl, ?_, ?_, ?_, ?_⟩
  · intro sdl2 hc
    rcases env with ⟨d, se⟩
    cases d with
    | false => simp [connect] at hc
    | true => simp [connect] at hc; rw [← hc]
  · intro sdl2 hc
    rcases env with ⟨d, se⟩
    cases d with
    | false => simp [New, connect] at hc
    | true => simp [New, connect] at hc; rw [← hc]
  · exact ⟨writeRetry_final_pfx env sdl LOG_EMERG m,
      writeRetry_final_pfx env sdl LOG_ALERT m,
      writeRetry_final_pfx env sdl LOG_CRIT m,
      writeRetry_final_pfx env sdl LOG_ERR m,
      writeRetry_final_pfx env sdl LOG_WARNING m,
      writeRetry_final_pfx env sdl LOG_NOTICE m,
      writeRetry_final_pfx env sdl LOG_INFO m,
      writeRetry_final_pfx env sdl LOG_DEBUG m⟩
  · intro α sub v
    exact ⟨writeRetry_final_pfx env sdl LOG_EMERG (sub m v),
      writeRetry_final_pfx env sdl LOG_ALERT (sub m v),
      writeRetry_final_pfx env sdl LOG_CRIT (sub m v),
      writeRetry_final_pfx env sdl LOG_ERR (sub m v),
      writeRetry_final_pfx env sdl LOG_WARNING (sub m v),
      writeRetry_final_pfx env sdl LOG_NOTICE (sub m v),
      writeRetry_final_pfx env sdl LOG_INFO (sub m v),
      writeRetry_final_pfx env sdl LOG_DEBUG (sub m v)⟩

/-- Witness for C9: the logger constructed with prefix `"[app] "` carries
exactly that prefix. -/
theorem c9_prefix_immutable_witness : sdlApp.pfx = "[app] " :=
  (c9_prefix_immutable env0 sdlApp LOG_INFO "x" "[app] "
    "b").2.2.2.2.1 sdlApp rfl

/-- C10: whenever the stored handle is non-nil at the start of a logging
call, the call returns success with count equal to the message's byte
length, performs no reconnect, leaves the state unchanged, and its result
does not depend on the environment at all — the low-level `write` discards
the transport outcome and unconditionally reports success — so the
reconnect branch is reachable only with a nil handle. -/
theorem c10_open_handle_always_succeeds (env : Env) (sdl : Sysdlog)
    (s : Severity) (m : String) (c : Conn) (h : sdl.conn = some c) :
    (writeRetry env sdl s m).err = none ∧
    (writeRetry env sdl s m).n = m.utf8ByteSize ∧
    (writeRetry env sdl s m).connects = 0 ∧
    (writeRetry env sdl s m).final = sdl ∧
    (∀ env2 : Env, writeRetry env2 sdl s m = writeRetry env sdl s m) ∧
    ∀ env2 : Env, (write env2 sdl s m).err = none ∧
      (write env2 sdl s m).n = m.utf8ByteSize := by
  rcases sdl with ⟨p, co⟩
  cases co with
  | none => exact absurd h (by simp)
  | some c2 =>
    rw [writeRetry_conn_some]
    exact ⟨rfl, rfl, rfl, rfl,
      fun env2 => by rw [writeRetry_conn_some],
      fun env2 => ⟨rfl, rfl⟩⟩

/-- Witness for C10: with the endpoint down and the transport failing, a
logger holding an open handle still reports success without reconnecting. -/
theorem c10_open_handle_always_succeeds_witness :
    (writeRetry envDown sdlApp LOG_INFO "hello").err = none ∧
    (writeRetry envDown sdlApp LOG_INFO "hello").connects = 0 :=
  ⟨(c10_open_handle_always_succeeds envDown sdlApp LOG_INFO "hello"
      { closed := false } rfl).1,
   (c10_open_handle_always_succeeds envDown sdlApp LOG_INFO "hello"
      { closed := false } rfl).2.2.1⟩

end Sysdlog
